import Mathlib

/-!
Shallow embedding of the content-addressed artifact synchronization engine of
the lean-cli repository (src/lean/commands/cloud/... and
src/lean/components/api/...), and proofs of the frozen claims about it.

Conventions of the embedding:
* Content hashes are hex-digest strings (hashlib.sha256().hexdigest()).
* Each CLI command is embedded as a pure function from an environment record
  (the answers the outside world gives: HTTP responses, subprocess exit codes,
  hashes of byte streams) to a trace record (the externally visible effects:
  upload calls, download calls, cache writes, runtime load calls, outcome).
* HTTP results are Except values: Except.error carries the failing HTTP
  status code, Except.ok the successful payload.
-/

namespace LeanCLI

deriving instance DecidableEq for Except

/-- A content digest: hashlib.sha256().hexdigest() output, a hex string. -/
abbrev Hash := String

/-- hashlib.sha256 hexdigests are exactly 64 hex characters, in particular
they are never the empty string (Python-falsy). -/
def isHexDigest (h : Hash) : Prop := h.length = 64

/-! ## Push commands

From src/lean/commands/cloud/container/push.py (function push) and
src/lean/commands/cloud/cli/push.py (function push). -/

/-- The remote-hash comparison of both push commands,
Python: if remote_hash and remote_hash == content_hash.
An empty remote hash string is falsy in Python, hence the inequality test. -/
def remoteMatches (remoteHash : Option Hash) (contentHash : Hash) : Bool :=
  match remoteHash with
  | some h => h != "" && h == contentHash
  | none => false

/-- How a push run ends: a fatal error before or during transfer, the
"already up to date" skip, or a completed upload. -/
inductive PushOutcome
  | fatal
  | upToDate
  | pushed
  deriving DecidableEq, Repr

/-- The externally visible effects of one push invocation: the hashes that
were uploaded (in order) and the outcome. -/
structure PushTrace where
  uploads : List Hash
  outcome : PushOutcome
  deriving DecidableEq, Repr

/-- Last-writer-wins remote store semantics: each upload replaces the current
remote artifact hash. -/
def applyUploads (remote : Option Hash) (uploads : List Hash) : Option Hash :=
  uploads.foldl (fun _ h => some h) remote

/-- Environment of src/lean/commands/cloud/container/push.py (push):
whether docker/podman is on PATH, the inspect and save subprocess exit codes,
the response of data_server_client.get_container_hash, and the sha256
hexdigest of the gzip-compressed exported tarball. -/
structure ContainerPushEnv where
  runtimeFound : Bool
  inspectExit : Nat
  saveExit : Nat
  remoteHashResponse : Except Nat Hash
  contentHash : Hash
  deriving DecidableEq, Repr

/-- src/lean/commands/cloud/container/push.py, function push.
Mirrors the control flow: runtime lookup, image inspect, remote hash query
(404 maps to no remote hash, any other failing status propagates), image
export, compression and hashing, the skip comparison, and the upload. -/
def containerPush (force : Bool) (env : ContainerPushEnv) : PushTrace :=
  if !env.runtimeFound then ⟨[], .fatal⟩
  else if env.inspectExit ≠ 0 then ⟨[], .fatal⟩
  else
    let remoteHashResult : Except Nat (Option Hash) :=
      if force then .ok none
      else
        match env.remoteHashResponse with
        | .ok h => .ok (some h)
        | .error code => if code = 404 then .ok none else .error code
    match remoteHashResult with
    | .error _ => ⟨[], .fatal⟩
    | .ok remoteHash =>
      if env.saveExit ≠ 0 then ⟨[], .fatal⟩
      else if remoteMatches remoteHash env.contentHash then ⟨[], .upToDate⟩
      else ⟨[env.contentHash], .pushed⟩

/-- Environment of src/lean/commands/cloud/cli/push.py (push): whether the S3
client is configured and the source directory was found, the result of
s3_client.get_cli_hash (Except.ok none when the object is absent, an error
status when the metadata HEAD request fails), and the sha256 hexdigest of the
built tarball. -/
structure CliPushEnv where
  s3Configured : Bool
  sourceDirFound : Bool
  cliHashResponse : Except Nat (Option Hash)
  contentHash : Hash
  deriving DecidableEq, Repr

/-- src/lean/commands/cloud/cli/push.py, function push.
Mirrors the control flow: S3 client check, source directory lookup, remote
hash query (skipped entirely under force), tarball build and hashing, the
skip comparison, and the upload. -/
def cliPush (force : Bool) (env : CliPushEnv) : PushTrace :=
  if !env.s3Configured then ⟨[], .fatal⟩
  else if !env.sourceDirFound then ⟨[], .fatal⟩
  else
    let remoteHashResult : Except Nat (Option Hash) :=
      if force then .ok none else env.cliHashResponse
    match remoteHashResult with
    | .error _ => ⟨[], .fatal⟩
    | .ok remoteHash =>
      if remoteMatches remoteHash env.contentHash then ⟨[], .upToDate⟩
      else ⟨[env.contentHash], .pushed⟩

/-! ## Container pull

From src/lean/commands/cloud/container/pull.py (function pull). The download
destination is a file inside a tempfile.TemporaryDirectory, deleted when the
with-block exits on every path, so the only persistent local state change of
a pull is the cache write recorded in the trace. -/

/-- How a container pull run ends. -/
inductive PullOutcome
  | nothingToPull
  | upToDate
  | updateAvailable
  | pulled
  | fatalTransport (code : Nat)
  | fatalRuntimeMissing
  | fatalIntegrity
  | fatalLoad
  deriving DecidableEq, Repr

/-- The externally visible effects of one container pull invocation:
download calls made, runtime load invocations, per-kind cache-file writes
(container type, hash written), and the outcome. -/
structure PullTrace where
  downloads : Nat
  loads : Nat
  cacheWrites : List (String × Hash)
  outcome : PullOutcome
  deriving DecidableEq, Repr

/-- Environment of src/lean/commands/cloud/container/pull.py (pull): the
response of data_server_client.get_container_hash, the cached hash read by
_get_cached_hash (none when the cache file does not exist), whether
docker/podman is on PATH, the sha256 hexdigest of the bytes the download
wrote to disk, and the docker/podman load exit code. -/
structure ContainerPullEnv where
  remoteHashResponse : Except Nat Hash
  cachedHash : Option Hash
  runtimeFound : Bool
  downloadedHash : Hash
  loadExit : Nat
  deriving DecidableEq, Repr

/-- src/lean/commands/cloud/container/pull.py, function pull.
Mirrors the control flow: remote hash query (404 maps to "nothing to pull",
any other failing status propagates), cached-hash comparison
(update_needed := force or local_hash != remote_hash), the check-only exit,
runtime lookup, streamed download, chunked re-hash and integrity comparison,
gunzip plus runtime load, and finally _set_cached_hash. -/
def containerPull (ctype : String) (force checkOnly : Bool)
    (env : ContainerPullEnv) : PullTrace :=
  match env.remoteHashResponse with
  | .error code =>
    if code = 404 then ⟨0, 0, [], .nothingToPull⟩
    else ⟨0, 0, [], .fatalTransport code⟩
  | .ok remoteHash =>
    let updateNeeded := force || env.cachedHash != some remoteHash
    if !updateNeeded then ⟨0, 0, [], .upToDate⟩
    else if checkOnly then ⟨0, 0, [], .updateAvailable⟩
    else if !env.runtimeFound then ⟨0, 0, [], .fatalRuntimeMissing⟩
    else if env.downloadedHash ≠ remoteHash then ⟨1, 0, [], .fatalIntegrity⟩
    else if env.loadExit ≠ 0 then ⟨1, 1, [], .fatalLoad⟩
    else ⟨1, 1, [(ctype, remoteHash)], .pulled⟩

/-! ## Local cache writes

From src/lean/commands/cloud/container/pull.py, function _set_cached_hash:
CONTAINER_CACHE_DIR.mkdir(parents=True, exist_ok=True) followed by
hash_file.write_text(content_hash). Path.write_text opens the file with mode
"w" (truncating it to empty) and then writes the content, so at the
file-system level the write is two observable steps on the same path. -/

/-- CONTAINER_CACHE_DIR = Path.home() / ".lean" / "container-cache". -/
def containerCacheDir : String := "~/.lean/container-cache"

/-- CONTAINER_CACHE_DIR / (container_type + ".hash"). -/
def hashFilePath (ctype : String) : String :=
  containerCacheDir ++ "/" ++ ctype ++ ".hash"

/-- File-system operations at the granularity a concurrent reader can
observe: directory creation, in-place truncation (open with mode "w"),
writing content to a path, and atomic rename. -/
inductive FsOp
  | mkdirp (dir : String)
  | truncate (path : String)
  | writeAll (path : String) (content : String)
  | rename (src dst : String)
  deriving DecidableEq, Repr

/-- The operation sequence _set_cached_hash performs: create the cache
directory, then Path.write_text, which is open with mode "w" (truncate in
place) followed by the write of the new content. -/
def setCachedHashOps (ctype contentHash : String) : List FsOp :=
  [ .mkdirp containerCacheDir,
    .truncate (hashFilePath ctype),
    .writeAll (hashFilePath ctype) contentHash ]

/-- Effect of one file-system operation on the file contents map
(none = the path does not exist). -/
def applyOp (fs : String → Option String) : FsOp → (String → Option String)
  | .mkdirp _ => fs
  | .truncate p => fun q => if q = p then some "" else fs q
  | .writeAll p c => fun q => if q = p then some c else fs q
  | .rename src dst => fun q =>
      if q = dst then fs src else if q = src then none else fs q

/-- The file contents map after a sequence of operations. -/
def runOps (init : String → Option String) (ops : List FsOp) :
    String → Option String :=
  ops.foldl applyOp init

/-- The contents of path p that a reader can observe at each point during a
sequence of operations: after every prefix of the sequence. -/
def observableContents (init : String → Option String) (ops : List FsOp)
    (p : String) : List (Option String) :=
  (List.range (ops.length + 1)).map fun n => runOps init (ops.take n) p

/-- An atomic replacement of path p by newContent: every state a reader can
observe shows either the old contents or the new contents, never anything
half-written. -/
def atomicReplaceObserved (init : String → Option String) (ops : List FsOp)
    (p : String) (newContent : String) : Prop :=
  ∀ c ∈ observableContents init ops p, c = init p ∨ c = some newContent

/-! ## Transfer progress reporting

From src/lean/components/api/data_server_client.py
(_ProgressFileWrapper.__next__ and download_container_to_file) and
src/lean/components/api/s3_storage_client.py (_ProgressFileWrapper.read and
the download loops). All four use the same pattern:
percent = int(bytes / total * 100); report when
percent > last_percent and percent % 10 == 0. The float truncation
int(bytes / total * 100) is modelled as exact natural floor division. -/

/-- State of the upload progress wrapper: bytes read so far, the last
reported percentage, and the progress messages reported so far (by the
percentage they reported). -/
structure ProgressState where
  bytesRead : Nat
  lastPercent : Nat
  messages : List Nat
  deriving DecidableEq, Repr

/-- One chunk handed out by _ProgressFileWrapper.__next__ (equally
_ProgressFileWrapper.read): count the bytes, compute the integer percentage
of the expected total, and report when it is a multiple of ten strictly
above the last reported percentage. -/
def progressStep (totalSize : Nat) (st : ProgressState) (chunkLen : Nat) :
    ProgressState :=
  let bytesRead := st.bytesRead + chunkLen
  let percent := bytesRead * 100 / totalSize
  if st.lastPercent < percent ∧ percent % 10 = 0 then
    ⟨bytesRead, percent, st.messages ++ [percent]⟩
  else
    ⟨bytesRead, st.lastPercent, st.messages⟩

/-- A whole upload through the progress wrapper: the chunks are the
successive nonempty reads of the source file. -/
def uploadProgress (totalSize : Nat) (chunks : List Nat) : ProgressState :=
  chunks.foldl (progressStep totalSize) ⟨0, 0, []⟩

/-- Whether a chunk crosses a 10%-boundary of bytes-transferred over
expected size: the number of whole tens in the percentage grows. -/
def stepCrossesTenBoundary (totalSize : Nat) (st : ProgressState)
    (chunkLen : Nat) : Bool :=
  st.bytesRead * 100 / totalSize / 10
    < (st.bytesRead + chunkLen) * 100 / totalSize / 10

/-- State of a streaming download loop: bytes written so far, last reported
percentage, messages reported so far. -/
structure DownloadState where
  bytesWritten : Nat
  lastPercent : Nat
  messages : List Nat
  deriving DecidableEq, Repr

/-- One iteration of the download loops (download_container_to_file in
data_server_client.py; download_container and download_cli in
s3_storage_client.py): skip empty chunks (Python: if chunk), write the
chunk, and report progress only when the expected size is known and truthy
(Python: if expected_size), using the same exact-multiple-of-ten test as the
upload wrapper. -/
def downloadStep (expectedSize : Option Nat) (st : DownloadState)
    (chunkLen : Nat) : DownloadState :=
  if chunkLen = 0 then st
  else
    let bytesWritten := st.bytesWritten + chunkLen
    match expectedSize with
    | none => ⟨bytesWritten, st.lastPercent, st.messages⟩
    | some total =>
      if total = 0 then ⟨bytesWritten, st.lastPercent, st.messages⟩
      else
        let percent := bytesWritten * 100 / total
        if st.lastPercent < percent ∧ percent % 10 = 0 then
          ⟨bytesWritten, percent, st.messages ++ [percent]⟩
        else
          ⟨bytesWritten, st.lastPercent, st.messages⟩

/-- A whole streamed download: returns the bytes written to the destination
file and the progress messages reported. -/
def downloadToFile (expectedSize : Option Nat) (chunks : List Nat) :
    Nat × List Nat :=
  let final := chunks.foldl (downloadStep expectedSize) ⟨0, 0, []⟩
  (final.bytesWritten, final.messages)

/-- The percentages the progress loop computes after each successive chunk,
starting from b bytes already transferred. -/
def percentsFrom (totalSize b : Nat) : List Nat → List Nat
  | [] => []
  | c :: cs => ((b + c) * 100 / totalSize) :: percentsFrom totalSize (b + c) cs

/-- The subsequence of values strictly rising above the running maximum
seeded with last: exactly the values the progress loop reports among the
multiples of ten it lands on. -/
def strictRises (last : Nat) : List Nat → List Nat
  | [] => []
  | p :: ps => if last < p then p :: strictRises p ps else strictRises last ps

/-! ## CLI archive builder

From src/lean/commands/cloud/cli/push.py, function _create_cli_tarball (with
its inner function should_exclude). Files are identified by their path
components relative to the source directory. -/

/-- include_patterns of _create_cli_tarball. -/
def includePatterns : List String :=
  ["lean", "pyproject.toml", "setup.py", "setup.cfg", "README.md",
   "LICENSE", "MANIFEST.in"]

/-- exclude_patterns of _create_cli_tarball, verbatim. -/
def excludePatterns : List String :=
  ["__pycache__", ".pyc", ".pyo", ".git", ".pytest_cache", ".mypy_cache",
   ".tox", ".eggs", "*.egg-info", ".venv", "venv", "dist", "build"]

/-- should_exclude of _create_cli_tarball: a pattern beginning with a star
(pattern.startswith of a star) matches when the name ends with the rest of
the pattern (name.endswith of pattern with the star dropped), any other
pattern only by exact equality with the name. The two Python string
predicates are expressed on the character sequences so that they compute. -/
def shouldExclude (name : String) : Bool :=
  excludePatterns.any fun pat =>
    match pat.data with
    | '*' :: suffix => List.isSuffixOf suffix name.data
    | _ => name == pat

/-- An input file tree: the relative component paths of its regular files
and of its directories. -/
structure SrcTree where
  files : List (List String)
  dirs : List (List String)
  deriving DecidableEq, Repr

/-- Whether a relative path is a proper descendant of the top-level
directory dirName, as enumerated by (source_dir / dirName).rglob("*"). -/
def underDir (dirName : String) (f : List String) : Bool :=
  match f with
  | top :: _ :: _ => top == dirName
  | _ => false

/-- The names of the ancestor directories of a relative path, as
file_path.relative_to(source_dir).parents yields them; the final "" is the
name of the relative root Path("."). -/
def ancestorNames (f : List String) : List String :=
  f.dropLast ++ [""]

/-- The per-file filter inside the directory branch of _create_cli_tarball:
keep a regular file when neither its leaf name (should_exclude(file_path))
nor any ancestor directory name (the loop over parents) matches an exclusion
pattern. -/
def dirEntryKept (f : List String) : Bool :=
  !shouldExclude (f.getLastD "") && !(ancestorNames f).any shouldExclude

/-- The entry names (as component paths) of the tar archive
_create_cli_tarball builds: for each include pattern in order, a top-level
file is added under its own name, and a top-level directory contributes
every kept regular file beneath it under its relative path; an include
pattern that does not exist under the source directory is skipped. -/
def cliTarballEntries (tree : SrcTree) : List (List String) :=
  (includePatterns.map fun pat =>
    if [pat] ∈ tree.files then [[pat]]
    else if [pat] ∈ tree.dirs then
      tree.files.filter fun f => underDir pat f && dirEntryKept f
    else []).flatten

/-! ### The bytes written by _create_cli_tarball

The tar container is built in memory and then written through
gzip.open(output_path, "wb", compresslevel=6). CPython's GzipFile writes an
RFC 1952 member: a header carrying FNAME and a 4-byte little-endian MTIME
that defaults to int(time.time()) at the moment of writing, then the DEFLATE
stream of the payload, then the CRC32/ISIZE trailer. The DEFLATE stream and
the trailer are deterministic functions of the in-memory tar bytes (zlib
level 6 is deterministic), so they are carried as opaque byte lists below;
the header is modelled byte-exactly because it is what varies between
invocations. -/

/-- Four little-endian bytes of a 32-bit value (struct.pack of "<L"). -/
def le32 (n : Nat) : List Nat :=
  [n % 256, n / 256 % 256, n / 256 / 256 % 256, n / 256 / 256 / 256 % 256]

/-- The bytes of "lean-cli.tar": GzipFile stores the base name of the output
file with its ".gz" suffix stripped in the FNAME field. -/
def gzBaseName : List Nat :=
  [108, 101, 97, 110, 45, 99, 108, 105, 46, 116, 97, 114]

/-- The RFC 1952 header GzipFile writes for lean-cli.tar.gz at compresslevel
6: magic 1f 8b, method 8 (deflate), flags 8 (FNAME), the 4-byte MTIME
defaulting to the current Unix time, XFL 0 (level 6), OS 255, then the
zero-terminated base name. -/
def gzipHeader (mtime : Nat) : List Nat :=
  [0x1f, 0x8b, 8, 8] ++ le32 (mtime % 2 ^ 32) ++ [0, 255] ++ gzBaseName ++ [0]

/-- The bytes _create_cli_tarball leaves in output_path when invoked at Unix
time now on a tree whose tar serialization deflates to deflatedTar with
trailer trailer (both fixed when the input tree is unchanged). -/
def createCliTarballBytes (now : Nat) (deflatedTar trailer : List Nat) :
    List Nat :=
  gzipHeader now ++ deflatedTar ++ trailer

/-! ## Config push

From src/lean/commands/cloud/config/push.py, function push. Config values
are modelled as strings; Python truthiness of a value is being nonempty.
The command never writes any local file on any path: it only reads lean.json
and the CLI credential storage. -/

/-- Look a key up in an association-list config, with Python
dict.get(key, "") semantics. -/
def lookupD (cfg : List (String × String)) (key : String) : String :=
  match cfg.find? (fun kv => kv.1 == key) with
  | some kv => kv.2
  | none => ""

/-- config_data[key] = value on an association-list config. -/
def setKey (cfg : List (String × String)) (key value : String) :
    List (String × String) :=
  if cfg.any (fun kv => kv.1 == key) then
    cfg.map fun kv => if kv.1 == key then (key, value) else kv
  else cfg ++ [(key, value)]

/-- The credential merge loop of push: for each CLI credential in order, if
its value is truthy and config_data.get(key, "") equals "", copy it into the
config (if value and config_data.get(key, "") == ""). -/
def mergeCredentials (config creds : List (String × String)) :
    List (String × String) :=
  creds.foldl
    (fun cfg kv =>
      if kv.2 ≠ "" ∧ lookupD cfg kv.1 = "" then setKey cfg kv.1 kv.2 else cfg)
    config

/-- How a config push run ends. -/
inductive ConfigPushOutcome
  | dryRunShown
  | pushed
  deriving DecidableEq, Repr

/-- The externally visible effects of one config push invocation: the
payloads sent to data_server_client.push_config, the local files written,
the keys displayed to the user, and the outcome. -/
structure ConfigPushTrace where
  requests : List (List (String × String))
  fileWrites : List String
  displayedKeys : List String
  outcome : ConfigPushOutcome
  deriving DecidableEq, Repr

/-- The sorted key list the dry-run branch prints
(for key in sorted(config_data.keys())). -/
def sortedKeys (cfg : List (String × String)) : List String :=
  (cfg.map Prod.fst).mergeSort fun a b => decide (a ≤ b)

/-- src/lean/commands/cloud/config/push.py, function push. Mirrors the
control flow: read lean.json, merge the CLI credentials into the in-memory
dict, then either display the would-be payload and return (dry run) or send
the merged payload to the data server. -/
def configPush (dryRun : Bool) (localConfig creds : List (String × String)) :
    ConfigPushTrace :=
  let merged := mergeCredentials localConfig creds
  if dryRun then ⟨[], [], sortedKeys merged, .dryRunShown⟩
  else ⟨[merged], [], [], .pushed⟩

/-- Server-side config store semantics: push_config upserts, so each request
replaces the stored config for the addressed name. -/
def applyConfigPushes (server : Option (List (String × String)))
    (requests : List (List (String × String))) :
    Option (List (String × String)) :=
  requests.foldl (fun _ r => some r) server

/-! ## Theorems for the claims -/

/-- A fixed 64-character sha256 hexdigest used by concrete witnesses. -/
def sampleDigest : Hash :=
  "0123456789abcdef0123456789abcdef0123456789abcdef0123456789abcdef"

/-- A second, different 64-character sha256 hexdigest for witnesses. -/
def otherDigest : Hash :=
  "ffff6789abcdef0123456789abcdef0123456789abcdef0123456789abcdef00"

/-- C1: for every push (container or CLI) invoked without the force flag
where the remote hash query succeeds and the returned remote hash equals the
locally computed content hash of the built tarball, the push terminates
reporting already up to date, performs zero upload calls, and leaves the
remote artifact unchanged. -/
theorem c1_push_skips_upload_when_remote_hash_matches
    (e1 : ContainerPushEnv) (e2 : CliPushEnv)
    (h1 : e1.runtimeFound = true) (h2 : e1.inspectExit = 0)
    (h3 : e1.saveExit = 0)
    (h4 : e1.remoteHashResponse = Except.ok e1.contentHash)
    (h5 : isHexDigest e1.contentHash)
    (g1 : e2.s3Configured = true) (g2 : e2.sourceDirFound = true)
    (g3 : e2.cliHashResponse = Except.ok (some e2.contentHash))
    (g4 : isHexDigest e2.contentHash) :
    containerPush false e1 = ⟨[], .upToDate⟩ ∧
    cliPush false e2 = ⟨[], .upToDate⟩ ∧
    ∀ r : Option Hash,
      applyUploads r (containerPush false e1).uploads = r ∧
      applyUploads r (cliPush false e2).uploads = r := by
  have hne1 : e1.contentHash ≠ "" := by
    intro hh
    rw [isHexDigest, hh] at h5
    simp at h5
  have hne2 : e2.contentHash ≠ "" := by
    intro hh
    rw [isHexDigest, hh] at g4
    simp at g4
  have hc : containerPush false e1 = ⟨[], .upToDate⟩ := by
    simp [containerPush, remoteMatches, h1, h2, h3, h4, hne1]
  have hk : cliPush false e2 = ⟨[], .upToDate⟩ := by
    simp [cliPush, remoteMatches, g1, g2, g3, hne2]
  refine ⟨hc, hk, fun r => ?_⟩
  rw [hc, hk]
  exact ⟨rfl, rfl⟩

/-- Witness for C1 at concrete environments. -/
theorem c1_push_skips_upload_when_remote_hash_matches_witness :
    containerPush false ⟨true, 0, 0, Except.ok sampleDigest, sampleDigest⟩
        = ⟨[], .upToDate⟩ ∧
    cliPush false ⟨true, true, Except.ok (some sampleDigest), sampleDigest⟩
        = ⟨[], .upToDate⟩ ∧
    ∀ r : Option Hash,
      applyUploads r (containerPush false
        ⟨true, 0, 0, Except.ok sampleDigest, sampleDigest⟩).uploads = r ∧
      applyUploads r (cliPush false
        ⟨true, true, Except.ok (some sampleDigest), sampleDigest⟩).uploads = r :=
  c1_push_skips_upload_when_remote_hash_matches
    ⟨true, 0, 0, Except.ok sampleDigest, sampleDigest⟩
    ⟨true, true, Except.ok (some sampleDigest), sampleDigest⟩
    rfl rfl rfl rfl (by unfold isHexDigest; decide)
    rfl rfl rfl (by unfold isHexDigest; decide)

/-- C2: for every container pull in which the digest recomputed over the
downloaded bytes differs from the remote-advertised hash, the operation
fails with an integrity error, the runtime load is never invoked, and the
per-kind local cache entry is left unchanged (the downloaded file itself
lives in a TemporaryDirectory that is deleted on exit, so no downloaded data
survives). -/
theorem c2_pull_integrity_mismatch_discards
    (ctype : String) (force : Bool) (env : ContainerPullEnv)
    (remoteHash : Hash)
    (h1 : env.remoteHashResponse = Except.ok remoteHash)
    (h2 : env.runtimeFound = true)
    (h3 : force = true ∨ env.cachedHash ≠ some remoteHash)
    (h4 : env.downloadedHash ≠ remoteHash) :
    containerPull ctype force false env = ⟨1, 0, [], .fatalIntegrity⟩ := by
  rcases h3 with h3 | h3 <;>
    simp [containerPull, h1, h2, h3, h4]

/-- Witness for C2 at a concrete environment. -/
theorem c2_pull_integrity_mismatch_discards_witness :
    containerPull "engine" false false
        ⟨Except.ok sampleDigest, none, true, otherDigest, 0⟩
      = ⟨1, 0, [], .fatalIntegrity⟩ :=
  c2_pull_integrity_mismatch_discards "engine" false
    ⟨Except.ok sampleDigest, none, true, otherDigest, 0⟩ sampleDigest
    rfl rfl (Or.inr (by decide)) (by decide)

/-- C5: for every container pull invoked without the force flag where a
local cache entry exists and equals the hash reported by the remote, the
pull terminates as up to date and performs zero download calls, zero load
calls and zero cache writes. -/
theorem c5_pull_up_to_date_skips_download
    (ctype : String) (checkOnly : Bool) (env : ContainerPullEnv)
    (remoteHash : Hash)
    (h1 : env.remoteHashResponse = Except.ok remoteHash)
    (h2 : env.cachedHash = some remoteHash) :
    containerPull ctype false checkOnly env = ⟨0, 0, [], .upToDate⟩ := by
  simp [containerPull, h1, h2]

/-- Witness for C5 at a concrete environment. -/
theorem c5_pull_up_to_date_skips_download_witness :
    containerPull "engine" false false
        ⟨Except.ok sampleDigest, some sampleDigest, true, sampleDigest, 0⟩
      = ⟨0, 0, [], .upToDate⟩ :=
  c5_pull_up_to_date_skips_download "engine" false
    ⟨Except.ok sampleDigest, some sampleDigest, true, sampleDigest, 0⟩
    sampleDigest rfl rfl

/-- C6: for every container pull where the remote hash query returns
HTTP 404, the pull reports nothing to pull and terminates successfully with
no downloads, while any other failing status of the hash query propagates as
a fatal transport error. -/
theorem c6_pull_not_found_is_benign
    (ctype1 ctype2 : String) (force1 checkOnly1 force2 checkOnly2 : Bool)
    (e1 e2 : ContainerPullEnv) (code : Nat)
    (h1 : e1.remoteHashResponse = Except.error 404)
    (h2 : e2.remoteHashResponse = Except.error code)
    (h3 : code ≠ 404) :
    containerPull ctype1 force1 checkOnly1 e1 = ⟨0, 0, [], .nothingToPull⟩ ∧
    containerPull ctype2 force2 checkOnly2 e2
      = ⟨0, 0, [], .fatalTransport code⟩ := by
  constructor
  · simp [containerPull, h1]
  · simp [containerPull, h2, h3]

/-- Witness for C6 at concrete environments (status 500 for the fatal
side). -/
theorem c6_pull_not_found_is_benign_witness :
    containerPull "engine" false false
        ⟨Except.error 404, none, true, sampleDigest, 0⟩
      = ⟨0, 0, [], .nothingToPull⟩ ∧
    containerPull "research" false false
        ⟨Except.error 500, none, true, sampleDigest, 0⟩
      = ⟨0, 0, [], .fatalTransport 500⟩ :=
  c6_pull_not_found_is_benign "engine" "research" false false false false
    ⟨Except.error 404, none, true, sampleDigest, 0⟩
    ⟨Except.error 500, none, true, sampleDigest, 0⟩ 500 rfl rfl (by decide)

/-- C9: for every container pull that downloads and hash-verifies a
tarball, a failing runtime load (nonzero exit status) makes the operation
fail with the cache left unwritten, and the per-kind cache entry is written
to the new remote hash exactly when the runtime load succeeds. -/
theorem c9_pull_cache_written_only_after_load_succeeds
    (ctype1 ctype2 : String) (force1 force2 : Bool)
    (e1 e2 : ContainerPullEnv) (rh1 rh2 : Hash)
    (h1 : e1.remoteHashResponse = Except.ok rh1)
    (h2 : e1.runtimeFound = true)
    (h3 : force1 = true ∨ e1.cachedHash ≠ some rh1)
    (h4 : e1.downloadedHash = rh1)
    (h5 : e1.loadExit ≠ 0)
    (g1 : e2.remoteHashResponse = Except.ok rh2)
    (g2 : e2.runtimeFound = true)
    (g3 : force2 = true ∨ e2.cachedHash ≠ some rh2)
    (g4 : e2.downloadedHash = rh2)
    (g5 : e2.loadExit = 0) :
    containerPull ctype1 force1 false e1 = ⟨1, 1, [], .fatalLoad⟩ ∧
    containerPull ctype2 force2 false e2
      = ⟨1, 1, [(ctype2, rh2)], .pulled⟩ := by
  constructor
  · rcases h3 with h3 | h3 <;>
      simp [containerPull, h1, h2, h3, h4, h5]
  · rcases g3 with g3 | g3 <;>
      simp [containerPull, g1, g2, g3, g4, g5]

/-- Witness for C9 at concrete environments. -/
theorem c9_pull_cache_written_only_after_load_succeeds_witness :
    containerPull "engine" false false
        ⟨Except.ok sampleDigest, none, true, sampleDigest, 1⟩
      = ⟨1, 1, [], .fatalLoad⟩ ∧
    containerPull "research" false false
        ⟨Except.ok sampleDigest, none, true, sampleDigest, 0⟩
      = ⟨1, 1, [("research", sampleDigest)], .pulled⟩ :=
  c9_pull_cache_written_only_after_load_succeeds "engine" "research"
    false false
    ⟨Except.ok sampleDigest, none, true, sampleDigest, 1⟩
    ⟨Except.ok sampleDigest, none, true, sampleDigest, 0⟩
    sampleDigest sampleDigest
    rfl rfl (Or.inr (by decide)) rfl (by decide)
    rfl rfl (Or.inr (by decide)) rfl rfl

/-- A starting file system in which the engine cache file already holds an
older hash value. -/
def engineInitFs : String → Option String :=
  fun p => if p = hashFilePath "engine" then some "aaa" else none

/-- C7 counterexample: replacing the cached hash "aaa" by "bbb" through
_set_cached_hash exposes an intermediate state (the empty file left by the
truncating open of write_text) that is neither the old nor the new record,
so the write is not an atomic replacement. -/
theorem c7_counterexample_cache_write_observable :
    ¬ atomicReplaceObserved engineInitFs (setCachedHashOps "engine" "bbb")
        (hashFilePath "engine") "bbb" := by
  unfold atomicReplaceObserved
  decide

/-- C7 amended: _set_cached_hash replaces the per-kind cache record by
truncating and rewriting the cache file in place (Path.write_text); it
performs no write-new-then-rename, a reader can observe a half-written
(empty) cache entry between the truncation and the write, and afterwards the
file holds the new hash. -/
theorem c7_amended_cache_write_in_place
    (ctype contentHash : String) (init : String → Option String) :
    (∀ src dst, FsOp.rename src dst ∉ setCachedHashOps ctype contentHash) ∧
    some "" ∈ observableContents init (setCachedHashOps ctype contentHash)
        (hashFilePath ctype) ∧
    runOps init (setCachedHashOps ctype contentHash) (hashFilePath ctype)
      = some contentHash := by
  refine ⟨?_, ?_, ?_⟩
  · intro src dst hmem
    simp [setCachedHashOps] at hmem
  · refine List.mem_map.mpr ⟨2, ?_, ?_⟩
    · simp [setCachedHashOps, List.mem_range]
    · simp [setCachedHashOps, runOps, applyOp]
  · simp [setCachedHashOps, runOps, applyOp]

/-- The upload progress wrapper run from an arbitrary intermediate state:
the messages it appends are the strict rises, above the last reported
percentage, among those chunk-end percentages that are exact multiples of
ten. -/
theorem uploadLoop_messages (totalSize : Nat) (chunks : List Nat) :
    ∀ (b last : Nat) (msgs : List Nat),
      (chunks.foldl (progressStep totalSize) ⟨b, last, msgs⟩).messages
        = msgs ++ strictRises last
            ((percentsFrom totalSize b chunks).filter fun p => p % 10 == 0) := by
  induction chunks with
  | nil => intro b last msgs; simp [percentsFrom, strictRises]
  | cons c cs ih =>
    intro b last msgs
    by_cases hmod : (b + c) * 100 / totalSize % 10 = 0
    · by_cases hlt : last < (b + c) * 100 / totalSize
      · simp [progressStep, percentsFrom, hmod, hlt, ih, strictRises]
      · simp [progressStep, percentsFrom, hmod, hlt, ih, strictRises]
    · simp [progressStep, percentsFrom, hmod, ih]

/-- The download loop with no known expected size, from an arbitrary
intermediate state: every chunk is written and no message is reported. -/
theorem downloadLoop_unknown_size (chunks : List Nat) :
    ∀ (b last : Nat) (msgs : List Nat),
      chunks.foldl (downloadStep none) ⟨b, last, msgs⟩
        = ⟨b + chunks.sum, last, msgs⟩ := by
  induction chunks with
  | nil => intro b last msgs; simp
  | cons c cs ih =>
    intro b last msgs
    by_cases hc : c = 0
    · subst hc
      simp [downloadStep, ih]
    · simp [downloadStep, hc, ih, Nat.add_assoc]

/-- The download loop with a known expected size, from an arbitrary
intermediate state: empty chunks are skipped outright (Python: if chunk),
and the messages appended are the strict rises, above the last reported
percentage, among those chunk-end percentages that are exact multiples of
ten — the same emission rule as the upload wrapper. When the expected size
is zero every computed percentage is zero (Nat division by zero), so the
right-hand side is empty, matching the loop's skipped progress branch
(Python: if expected_size). -/
theorem downloadLoop_known_size_messages (total : Nat) (chunks : List Nat) :
    ∀ (b last : Nat) (msgs : List Nat),
      (chunks.foldl (downloadStep (some total)) ⟨b, last, msgs⟩).messages
        = msgs ++ strictRises last
            ((percentsFrom total b (chunks.filter fun c => c != 0)).filter
              fun p => p % 10 == 0) := by
  induction chunks with
  | nil => intro b last msgs; simp [percentsFrom, strictRises]
  | cons c cs ih =>
    intro b last msgs
    by_cases hc : c = 0
    · subst hc
      simp [downloadStep, ih]
    · by_cases htot : total = 0
      · subst htot
        simp [downloadStep, hc, percentsFrom, ih, strictRises]
      · by_cases hmod : (b + c) * 100 / total % 10 = 0
        · by_cases hlt : last < (b + c) * 100 / total
          · simp [downloadStep, hc, htot, percentsFrom, hmod, hlt, ih,
              strictRises]
          · simp [downloadStep, hc, htot, percentsFrom, hmod, hlt, ih,
              strictRises]
        · simp [downloadStep, hc, htot, percentsFrom, hmod, ih]

/-- The download loops write every chunk regardless of whether the expected
size is known: the bytes written are the sum of the chunk lengths. -/
theorem downloadLoop_bytes_written (expectedSize : Option Nat)
    (chunks : List Nat) :
    ∀ (b last : Nat) (msgs : List Nat),
      (chunks.foldl (downloadStep expectedSize) ⟨b, last, msgs⟩).bytesWritten
        = b + chunks.sum := by
  induction chunks with
  | nil => intro b last msgs; simp
  | cons c cs ih =>
    intro b last msgs
    by_cases hc : c = 0
    · subst hc
      simp [downloadStep, ih]
    · match expectedSize with
      | none => simp [downloadStep, hc, ih, Nat.add_assoc]
      | some total =>
        by_cases htot : total = 0
        · subst htot
          simp [downloadStep, hc, ih, Nat.add_assoc]
        · by_cases hcond : last < (b + c) * 100 / total ∧
              (b + c) * 100 / total % 10 = 0
          · simp [downloadStep, hc, htot, hcond, ih, Nat.add_assoc]
          · simp [downloadStep, hc, htot, hcond, ih, Nat.add_assoc]

/-- C8 counterexample: with an expected size of 3 bytes and 1-byte chunks,
the first chunk crosses the 10%, 20% and 30% boundaries (the percentage
jumps from 0 to 33) yet no progress message is emitted, because 33 is not an
exact multiple of ten; over the whole transfer only 100 is ever reported. -/
theorem c8_counterexample_missed_boundary :
    stepCrossesTenBoundary 3 ⟨0, 0, []⟩ 1 = true ∧
    (progressStep 3 ⟨0, 0, []⟩ 1).messages = [] ∧
    (uploadProgress 3 [1, 1, 1]).messages = [100] := by
  decide

/-- C8 amended: for uploads and for downloads with a known expected size, a
progress message is reported exactly at those chunk boundaries where the
integer-truncated percentage of bytes-transferred over expected size is a
multiple of ten strictly above the last reported percentage — boundary
crossings that land on a non-multiple of ten emit nothing — and in every
case the transfer writes all its chunks to completion; when the expected
size is unknown no progress is reported but the transfer still proceeds to
completion. -/
theorem c8_amended_progress_on_exact_multiples :
    (∀ totalSize chunks,
      (uploadProgress totalSize chunks).messages
        = strictRises 0
            ((percentsFrom totalSize 0 chunks).filter fun p => p % 10 == 0)) ∧
    (∀ total chunks,
      (downloadToFile (some total) chunks).2
        = strictRises 0
            ((percentsFrom total 0 (chunks.filter fun c => c != 0)).filter
              fun p => p % 10 == 0)) ∧
    (∀ total chunks, (downloadToFile (some total) chunks).1 = chunks.sum) ∧
    (∀ chunks, downloadToFile none chunks = (chunks.sum, [])) := by
  refine ⟨?_, ?_, ?_, ?_⟩
  · intro totalSize chunks
    simpa using uploadLoop_messages totalSize chunks 0 0 []
  · intro total chunks
    simpa [downloadToFile]
      using downloadLoop_known_size_messages total chunks 0 0 []
  · intro total chunks
    simpa [downloadToFile]
      using downloadLoop_bytes_written (some total) chunks 0 0 []
  · intro chunks
    simp [downloadToFile, downloadLoop_unknown_size chunks 0 0 []]

/-- C3: the bytes _create_cli_tarball writes are not a function of the input
tree alone: the gzip header carries the invocation time in its MTIME field,
so archiving the same unchanged tree at Unix times 0 and 1 yields different
bytes — and therefore different content digests — whatever the (fixed)
deflate body and trailer of that tree are. -/
theorem c3_tarball_bytes_vary_with_invocation_time
    (deflatedTar trailer : List Nat) :
    createCliTarballBytes 0 deflatedTar trailer
      ≠ createCliTarballBytes 1 deflatedTar trailer := by
  intro h
  have hm : (1 : Nat) % 2 ^ 32 = 1 := by norm_num
  simp [createCliTarballBytes, gzipHeader, le32, hm] at h

/-- A concrete source tree holding a clean file lean/main.py, a compiled
file lean/foo.pyc, a generated file lean/build/gen.py and a top-level
pyproject.toml. -/
def demoTree : SrcTree :=
  { files := [["lean", "main.py"], ["lean", "foo.pyc"],
              ["lean", "build", "gen.py"], ["pyproject.toml"]],
    dirs := [["lean"], ["lean", "build"]] }

/-- C4 at the failing input: the exclusion pattern ".pyc" has no leading
star, so should_exclude matches only a file named exactly ".pyc" and the
file lean/foo.pyc IS present in the built archive, contradicting the claim;
the other parts of the claim hold on this tree: files under a build
directory are dropped via the ancestor check, and non-matching files under
lean (and top-level includes) are present. -/
theorem c4_foo_pyc_is_archived :
    shouldExclude "foo.pyc" = false ∧
    shouldExclude "build" = true ∧
    ["lean", "foo.pyc"] ∈ cliTarballEntries demoTree ∧
    ["lean", "build", "gen.py"] ∉ cliTarballEntries demoTree ∧
    ["lean", "main.py"] ∈ cliTarballEntries demoTree ∧
    ["pyproject.toml"] ∈ cliTarballEntries demoTree := by
  decide

/-- C10: a config push invoked with the dry-run flag displays the keys of
exactly the payload a real push would send, makes no network request, writes
no local file, and leaves any server-side config store unchanged. -/
theorem c10_config_push_dry_run_makes_no_request
    (localConfig creds : List (String × String)) :
    (configPush true localConfig creds).requests = [] ∧
    (configPush true localConfig creds).fileWrites = [] ∧
    (configPush true localConfig creds).outcome = .dryRunShown ∧
    (configPush true localConfig creds).displayedKeys
      = sortedKeys (mergeCredentials localConfig creds) ∧
    (configPush false localConfig creds).requests
      = [mergeCredentials localConfig creds] ∧
    ∀ server,
      applyConfigPushes server (configPush true localConfig creds).requests
        = server :=
  ⟨rfl, rfl, rfl, rfl, rfl, fun _ => rfl⟩

end LeanCLI
